/-
Verification of the status-light PTY supervisor (src/sl.py).

Shallow embedding conventions:
- Python floats (timestamps from time.time(), MIN_STATE_DURATION) are
  modelled as rationals (ℚ).
- Byte strings (child output chunks, the lookback buffer) are modelled as
  List Nat (one entry per byte).
- The external regex engine (re.search composed with bytes.decode using
  errors equal to ignore) is an uninterpreted parameter
  search : String → List Nat → Bool, taking the pattern and the buffer.
- subprocess.run is modelled by an environment Env recording whether the
  LED script binary exists and what exit status a run of it reports.
  Python's subprocess.run raises FileNotFoundError when the executable is
  missing and otherwise (without check=True) ignores the exit status.
- Exceptions are modelled with Except PyErr; side effects (invocations of
  the LED script, bytes written to stdout or to the child, restoring the
  terminal attributes) are collected in an event trace List Ev.
- time.time() calls within a single loop iteration all observe that
  iteration's timestamp Tick.t.
-/
import Mathlib

/-- Python exception kinds relevant to sl.py. -/
inductive PyErr where
  | fileNotFound
  | permissionError
  | yamlError
  | osError
deriving DecidableEq

/-- Observable side effects of the supervisor. -/
inductive Ev where
  /-- an invocation of subprocess.run on the LED script with argument list cmd -/
  | led (cmd : List String)
  /-- sys.stdout.buffer.write of a chunk of child output (line 100) -/
  | stdoutWrite (data : List Nat)
  /-- os.write(master_fd, data) forwarding user input to the child (line 90) -/
  | childWrite (data : List Nat)
  /-- termios.tcsetattr restoring the saved terminal settings (line 130) -/
  | restoreTerm
deriving DecidableEq

/-- External environment: whether the LED script exists as an executable,
and the exit status it reports when run. -/
structure Env where
  ledExists : Bool
  ledExit : Int
deriving DecidableEq

/-- Path of the LED script (os.path.join(dirname, "led"), line 25);
the directory prefix is irrelevant to the claims. -/
def LED_SCRIPT : String := "led"

/-- MIN_STATE_DURATION = 0.2 (line 17). -/
def MIN_STATE_DURATION : ℚ := 1/5

/-- STATE_TO_CMD dict (lines 19-23), as an association list. -/
def STATE_TO_CMD : List (String × List String) :=
  [("idle",     ["a", "0", "0", "0", "255"]),
   ("thinking", ["a", "0", "255", "255", "0"]),
   ("waiting",  ["a", "0", "100", "0", "0"])]

/-- STATE_TO_CMD.get(state, STATE_TO_CMD["idle"]) (line 42).  The inner
fallback [] is unreachable since "idle" is a key of STATE_TO_CMD. -/
def stateToCmdGet (state : String) : List String :=
  match STATE_TO_CMD.lookup state with
  | some v => v
  | none =>
    match STATE_TO_CMD.lookup "idle" with
    | some v => v
    | none => []

/-- subprocess.run(cmd, stdout=DEVNULL, stderr=DEVNULL): raises
FileNotFoundError when the executable is missing; otherwise runs the
command and reports its exit status, which the caller never checks.
The invocation attempt itself is recorded in the trace. -/
def subprocessRun (env : Env) (cmd : List String) : Except PyErr Int × List Ev :=
  if env.ledExists then (.ok env.ledExit, [.led cmd])
  else (.error .fileNotFound, [.led cmd])

/-- set_led (lines 41-44). -/
def set_led (env : Env) (state : String) : Except PyErr Unit × List Ev :=
  let cmd := LED_SCRIPT :: stateToCmdGet state
  match subprocessRun env cmd with
  | (.ok _, evs) => (.ok (), evs)
  | (.error e, evs) => (.error e, evs)

/-- The debounce clock closed over by update_state: last_state (initially
None) and last_change (initially 0), lines 50-51. -/
structure Debounce where
  last_state : Option String
  last_change : ℚ
deriving DecidableEq

/-- update_state (lines 53-59): calls set_led and updates the clock only
when the requested state differs from last_state and more than
MIN_STATE_DURATION has elapsed since last_change.  An exception from
set_led propagates before the clock is updated. -/
def update_state (env : Env) (d : Debounce) (state : String) (now : ℚ) :
    Except PyErr Debounce × List Ev :=
  if some state ≠ d.last_state ∧ now - d.last_change > MIN_STATE_DURATION then
    match set_led env state with
    | (.ok _, evs) => (.ok ⟨some state, now⟩, evs)
    | (.error e, evs) => (.error e, evs)
  else (.ok d, [])

/-- Python values as produced by yaml.safe_load (an empty file parses to
None; a YAML mapping parses to a dict). -/
inductive PyValue where
  | pyNone
  | pyBool (b : Bool)
  | pyInt (n : Int)
  | pyStr (s : String)
  | pyList (xs : List PyValue)
  | pyDict (xs : List (String × PyValue))

/-- The zero-value structure returned when both config files are absent
(line 39). -/
def zeroConfig : PyValue :=
  .pyDict [("patterns", .pyDict []), ("idle_threshold_ms", .pyInt 500)]

/-- Filesystem view of the two config files load_config may open.  none
means open raises FileNotFoundError; some r means open succeeds and r is
the combined outcome of reading and yaml.safe_load on the content (an
error r models malformed YAML or a read error, which the code does not
catch). -/
structure ConfigFS where
  toolFile : Option (Except PyErr PyValue)
  defaultFile : Option (Except PyErr PyValue)

/-- load_config (lines 30-39): try the tool-specific file, on
FileNotFoundError try default.yaml, on FileNotFoundError again return the
zero-value structure.  Any other exception propagates. -/
def load_config (fs : ConfigFS) : Except PyErr PyValue :=
  match fs.toolFile with
  | some r => r
  | none =>
    match fs.defaultFile with
    | some r => r
    | none => .ok zeroConfig

/-- The pattern lists and idle threshold the loop reads from the loaded
config: config.get("patterns", \x7b\x7d).get("waiting", []), the same for
"thinking", and config.get("idle_threshold_ms", 500) (lines 107, 110,
116). -/
structure ToolCfg where
  waiting : List String
  thinking : List String
  idle_threshold_ms : ℚ

/-- The classification of lines 105-111: if any waiting pattern matches
the decoded buffer the requested state is "waiting"; otherwise (elif) if
any thinking pattern matches it is "thinking"; otherwise no state is
requested.  search embeds re.search on the decoded buffer. -/
def classify (search : String → List Nat → Bool) (cfg : ToolCfg)
    (text : List Nat) : Option String :=
  if cfg.waiting.any (fun p => search p text) then some "waiting"
  else if cfg.thinking.any (fun p => search p text) then some "thinking"
  else none

/-- The last n bytes of a buffer: buffer[-n:] for a nonempty bound, as in
buffer[-1024:] on line 112. -/
def lastN (n : Nat) (l : List Nat) : List Nat := l.drop (l.length - n)

/-- The texts handed to re.search on each arrival of a chunk of child
output, iterating lines 102, 105 and 112: the retained buffer plus the
new chunk is searched, then the buffer is truncated to its last 1024
bytes. -/
def searchedTexts (buf : List Nat) : List (List Nat) → List (List Nat)
  | [] => []
  | c :: cs => (buf ++ c) :: searchedTexts (lastN 1024 (buf ++ c)) cs

/-- One iteration's worth of external events: what select reports ready,
what os.read returns on each side (an empty list models EOF, an error
models OSError), the iteration's timestamp, and whether proc.poll()
reports an exit status. -/
structure Tick where
  stdinReady : Bool
  stdinRead : Except PyErr (List Nat)
  masterReady : Bool
  masterRead : Except PyErr (List Nat)
  t : ℚ
  pollExited : Bool

/-- Loop-carried state of run_tool: the lookback buffer, the idle timer,
and the debounce clock. -/
structure LoopSt where
  buffer : List Nat
  idleTimer : ℚ
  deb : Debounce

/-- Lines 105-111: classify the buffer and feed the requested state, if
any, to update_state. -/
def stepClassify (env : Env) (cfg : ToolCfg) (search : String → List Nat → Bool)
    (deb : Debounce) (text : List Nat) (now : ℚ) :
    Except PyErr Debounce × List Ev :=
  match classify search cfg text with
  | some s => update_state env deb s now
  | none => (.ok deb, [])

/-- Lines 93-112, the child-output branch: on OSError or EOF break out of
the loop (.ok none); otherwise relay the chunk to stdout, extend the
buffer, reset the idle timer, classify, and truncate the buffer to its
last 1024 bytes.  An exception from update_state propagates. -/
def stepMaster (env : Env) (cfg : ToolCfg) (search : String → List Nat → Bool)
    (st : LoopSt) (tk : Tick) : Except PyErr (Option LoopSt) × List Ev :=
  if tk.masterReady then
    match tk.masterRead with
    | .error _ => (.ok none, [])
    | .ok [] => (.ok none, [])
    | .ok data =>
      match stepClassify env cfg search st.deb (st.buffer ++ data) tk.t with
      | (.error e, evs) => (.error e, Ev.stdoutWrite data :: evs)
      | (.ok d1, evs) =>
        (.ok (some ⟨lastN 1024 (st.buffer ++ data), tk.t, d1⟩),
          Ev.stdoutWrite data :: evs)
  else (.ok (some st), [])

/-- Lines 114-122: when select reported nothing ready and the idle
threshold has elapsed, request "idle"; then, when the child has exited,
request "idle" and break.  Exceptions from update_state propagate. -/
def stepTail (env : Env) (cfg : ToolCfg) (rlistEmpty : Bool) (st : LoopSt)
    (tk : Tick) : Except PyErr (Option LoopSt) × List Ev :=
  match (if rlistEmpty ∧ (tk.t - st.idleTimer) * 1000 > cfg.idle_threshold_ms then
      update_state env st.deb "idle" tk.t
    else (.ok st.deb, [])) with
  | (.error e, evs) => (.error e, evs)
  | (.ok d1, evs) =>
    if tk.pollExited then
      match update_state env d1 "idle" tk.t with
      | (.error e, evs2) => (.error e, evs ++ evs2)
      | (.ok _, evs2) => (.ok none, evs ++ evs2)
    else (.ok (some { st with deb := d1 }), evs)

/-- One iteration of the while loop (lines 75-122).  Result .ok none
models break, .ok (some st) models continuing with updated state, .error
models an exception escaping the loop body.  stdin is part of rlist only
when it is a TTY (lines 77-80); an OSError or EOF on stdin breaks
(lines 83-89), otherwise the chunk is forwarded to the child (line 90). -/
def loopStep (env : Env) (cfg : ToolCfg) (search : String → List Nat → Bool)
    (tty : Bool) (st : LoopSt) (tk : Tick) :
    Except PyErr (Option LoopSt) × List Ev :=
  match (if tty && tk.stdinReady then
      match tk.stdinRead with
      | .error _ => none
      | .ok [] => none
      | .ok data => some [Ev.childWrite data]
    else some []) with
  | none => (.ok none, [])
  | some evsA =>
    match stepMaster env cfg search st tk with
    | (.error e, evsB) => (.error e, evsA ++ evsB)
    | (.ok none, evsB) => (.ok none, evsA ++ evsB)
    | (.ok (some st1), evsB) =>
      match stepTail env cfg (!(tty && tk.stdinReady) && !tk.masterReady) st1 tk with
      | (r, evsC) => (r, evsA ++ evsB ++ evsC)

/-- The while loop driven by a finite script of iterations.  Result none
means the script was exhausted with the loop still running; some r means
the loop ended (normally via break, or with an exception). -/
def runLoop (env : Env) (cfg : ToolCfg) (search : String → List Nat → Bool)
    (tty : Bool) : LoopSt → List Tick → Option (Except PyErr Unit) × List Ev
  | _, [] => (none, [])
  | st, tk :: tks =>
    match loopStep env cfg search tty st tk with
    | (.error e, evs) => (some (.error e), evs)
    | (.ok none, evs) => (some (.ok ()), evs)
    | (.ok (some st1), evs) =>
      match runLoop env cfg search tty st1 tks with
      | (r, evs2) => (r, evs ++ evs2)

/-- Result of run_tool on a finite script: finished (normally or with an
exception), or still running when the script ran out mid-loop. -/
inductive Outcome where
  | finished (r : Except PyErr Unit)
  | stillRunning

/-- run_tool (lines 49-130).  After the loop ends, the finally block
(lines 125-130) runs: it invokes the LED script with argument "o"; if
that invocation raises (missing binary) the exception replaces any
in-flight one and the terminal restore on line 130 is skipped; otherwise
the saved terminal settings are restored when stdin was a TTY.  t0 is the
initial time.time() of line 73; the debounce clock starts as
(None, 0) per lines 50-51. -/
def run_tool (env : Env) (cfg : ToolCfg) (search : String → List Nat → Bool)
    (tty : Bool) (t0 : ℚ) (ticks : List Tick) : Outcome × List Ev :=
  match runLoop env cfg search tty ⟨[], t0, ⟨none, 0⟩⟩ ticks with
  | (none, evs) => (.stillRunning, evs)
  | (some r, evs) =>
    if env.ledExists then
      (.finished r,
        evs ++ [Ev.led [LED_SCRIPT, "o"]] ++ (if tty then [Ev.restoreTerm] else []))
    else
      (.finished (.error .fileNotFound), evs ++ [Ev.led [LED_SCRIPT, "o"]])

/-- Modelled from the spec's claim, for comparison with searchedTexts:
the text handed to the regex search on each arrival would be exactly the
last-1024-byte truncation of the accumulated output so far. -/
def windowOnlyTexts (cs : List (List Nat)) : List (List Nat) :=
  (List.range cs.length).map (fun k => lastN 1024 ((cs.take (k + 1)).join))

/-- Events the while loop body may emit: anything except the final LED
clear invocation and the terminal restore, which belong to the finally
block alone. -/
def loopEvOk (ev : Ev) : Prop :=
  ev ≠ Ev.restoreTerm ∧ ev ≠ Ev.led [LED_SCRIPT, "o"]

/-- A search function under which every pattern matches every text, used
for concrete witnesses. -/
def searchAll : String → List Nat → Bool := fun _ _ => true

/-- A configuration with one waiting pattern and no thinking patterns,
used for concrete witnesses. -/
def cfgW : ToolCfg := ⟨["x"], [], 500⟩

/-- A tick on which the child produced one byte of output at time 1. -/
def tickData : Tick := ⟨false, .ok [], true, .ok [65], 1, false⟩

/-- A tick at time 1/10 on which nothing is ready and the child has
exited. -/
def tickExit : Tick := ⟨false, .ok [], false, .ok [], 1/10, true⟩

/-- Environment in which the LED script binary is missing. -/
def envNoLed : Env := ⟨false, 0⟩

/-- Environment in which the LED script binary exists and exits with
status 0. -/
def envLed : Env := ⟨true, 0⟩

/-- Environment in which the LED script binary exists but exits with a
non-zero status. -/
def envLedFail : Env := ⟨true, 3⟩

/-- C3: an indicator call is issued by update_state exactly when the
requested state differs from last_state and more than MIN_STATE_DURATION
(0.2 s) has elapsed since last_change; on acceptance the invocation is
the LED command for the requested state and (when the LED binary exists,
so that set_led returns) last_state and last_change are updated to the
accepted state and the current time.  When no call is issued the clock is
unchanged. -/
theorem update_state_debounce_invariant (env : Env) (d : Debounce)
    (state : String) (now : ℚ) :
    ((update_state env d state now).2 ≠ [] ↔
      some state ≠ d.last_state ∧ now - d.last_change > MIN_STATE_DURATION)
    ∧ (some state ≠ d.last_state ∧ now - d.last_change > MIN_STATE_DURATION →
        (update_state env d state now).2 = [Ev.led (LED_SCRIPT :: stateToCmdGet state)]
        ∧ (env.ledExists = true →
            (update_state env d state now).1 = .ok ⟨some state, now⟩))
    ∧ ((update_state env d state now).2 = [] →
        (update_state env d state now).1 = .ok d) := by
  unfold update_state set_led subprocessRun
  split
  case isTrue h =>
    cases he : env.ledExists <;> simp [he, h]
  case isFalse h =>
    simp [h]

/-- Witness for update_state_debounce_invariant at a concrete accepted
transition. -/
theorem update_state_debounce_invariant_witness :
    (update_state envLed ⟨none, 0⟩ "waiting" 1).2 =
      [Ev.led (LED_SCRIPT :: stateToCmdGet "waiting")] :=
  ((update_state_debounce_invariant envLed ⟨none, 0⟩ "waiting" 1).2.1
    ⟨by decide, by norm_num [MIN_STATE_DURATION]⟩).1

/-- C7: requesting the state that is already last_state is a no-op: no
indicator invocation and the debounce clock is returned unchanged. -/
theorem update_state_idempotent (env : Env) (d : Debounce) (state : String)
    (now : ℚ) (h : d.last_state = some state) :
    update_state env d state now = (.ok d, []) := by
  unfold update_state
  rw [if_neg]
  simp [h]

/-- Witness for update_state_idempotent at a concrete repeated request. -/
theorem update_state_idempotent_witness :
    update_state envLed ⟨some "idle", 0⟩ "idle" 5 = (.ok ⟨some "idle", 0⟩, []) :=
  update_state_idempotent envLed ⟨some "idle", 0⟩ "idle" 5 rfl

/-- C8: from the initial debounce clock (last_state None, last_change 0,
lines 50-51), the first request always passes both checks, for any
requested state, as soon as the current time exceeds MIN_STATE_DURATION
(time.time() is seconds since the epoch, so this always holds at
runtime): the indicator invocation is issued immediately, and on success
the clock is set to the requested state and the current time. -/
theorem first_update_state_fires (env : Env) (state : String) (now : ℚ)
    (h : MIN_STATE_DURATION < now) :
    (update_state env ⟨none, 0⟩ state now).2 =
      [Ev.led (LED_SCRIPT :: stateToCmdGet state)]
    ∧ (env.ledExists = true →
        (update_state env ⟨none, 0⟩ state now).1 = .ok ⟨some state, now⟩) := by
  unfold update_state set_led subprocessRun
  rw [if_pos ⟨by simp, by simpa using h⟩]
  cases he : env.ledExists <;> simp [he]

/-- Witness for first_update_state_fires at a concrete first request. -/
theorem first_update_state_fires_witness :
    (update_state envLed ⟨none, 0⟩ "thinking" 1).2 =
      [Ev.led (LED_SCRIPT :: stateToCmdGet "thinking")]
    ∧ (envLed.ledExists = true →
        (update_state envLed ⟨none, 0⟩ "thinking" 1).1 = .ok ⟨some "thinking", 1⟩) :=
  first_update_state_fires envLed "thinking" 1 (by norm_num [MIN_STATE_DURATION])

/-- C10: set_led is total over arbitrary state strings: it always invokes
the LED script with the argument vector for the given state, where the
three known states map to their fixed vectors and every other string
falls back to the idle vector. -/
theorem set_led_total (env : Env) (state : String) :
    (set_led env state).2 = [Ev.led (LED_SCRIPT :: stateToCmdGet state)]
    ∧ stateToCmdGet "idle" = ["a", "0", "0", "0", "255"]
    ∧ stateToCmdGet "thinking" = ["a", "0", "255", "255", "0"]
    ∧ stateToCmdGet "waiting" = ["a", "0", "100", "0", "0"]
    ∧ (state ≠ "idle" → state ≠ "thinking" → state ≠ "waiting" →
        stateToCmdGet state = ["a", "0", "0", "0", "255"]) := by
  refine ⟨?_, by decide, by decide, by decide, ?_⟩
  · unfold set_led subprocessRun
    cases he : env.ledExists <;> simp [he]
  · intro h1 h2 h3
    have e1 : (state == "idle") = false := beq_eq_false_iff_ne.mpr h1
    have e2 : (state == "thinking") = false := beq_eq_false_iff_ne.mpr h2
    have e3 : (state == "waiting") = false := beq_eq_false_iff_ne.mpr h3
    simp [stateToCmdGet, STATE_TO_CMD, List.lookup, e1, e2, e3]

/-- Witness for set_led_total at a concrete unrecognized state. -/
theorem set_led_total_witness :
    (set_led envLed "bogus").2 = [Ev.led (LED_SCRIPT :: stateToCmdGet "bogus")]
    ∧ stateToCmdGet "bogus" = ["a", "0", "0", "0", "255"] :=
  ⟨(set_led_total envLed "bogus").1,
   (set_led_total envLed "bogus").2.2.2.2 (by decide) (by decide) (by decide)⟩

/-- C6: load_config first tries the tool-specific file, on
FileNotFoundError falls back to the default file, on FileNotFoundError
again returns the zero-value structure with empty patterns and
idle_threshold_ms 500; any error other than a missing file (malformed
YAML, permissions) propagates instead of being defaulted. -/
theorem load_config_fallback (fs : ConfigFS) :
    (∀ r, fs.toolFile = some r → load_config fs = r)
    ∧ (fs.toolFile = none → ∀ r, fs.defaultFile = some r → load_config fs = r)
    ∧ (fs.toolFile = none → fs.defaultFile = none →
        load_config fs = .ok zeroConfig)
    ∧ (∀ e, fs.toolFile = some (.error e) → load_config fs = .error e)
    ∧ (∀ e, fs.toolFile = none → fs.defaultFile = some (.error e) →
        load_config fs = .error e) := by
  unfold load_config
  refine ⟨?_, ?_, ?_, ?_, ?_⟩ <;> intros <;> simp_all

/-- Witness for load_config_fallback: both files absent yields the
zero-value structure. -/
theorem load_config_fallback_witness :
    load_config ⟨none, none⟩ = .ok zeroConfig :=
  (load_config_fallback ⟨none, none⟩).2.2.1 rfl rfl

/-- C9: when a config file exists, load_config returns the parser's
result verbatim — in particular .ok None for an empty YAML file, which is
distinct from the zero-value structure; the zero-value structure is
produced by the built-in default only when both files are absent. -/
theorem load_config_verbatim (fs : ConfigFS) :
    (fs.toolFile = some (.ok .pyNone) → load_config fs = .ok PyValue.pyNone)
    ∧ (fs.toolFile = none → ∀ v, fs.defaultFile = some (.ok v) →
        load_config fs = .ok v)
    ∧ ((.ok PyValue.pyNone : Except PyErr PyValue) ≠ .ok zeroConfig)
    ∧ (fs.toolFile = none → fs.defaultFile = none →
        load_config fs = .ok zeroConfig) := by
  unfold load_config
  refine ⟨?_, ?_, ?_, ?_⟩
  · intros; simp_all
  · intros; simp_all
  · intro h
    rw [zeroConfig] at h
    exact PyValue.noConfusion (Except.ok.inj h)
  · intros; simp_all

/-- Witness for load_config_verbatim: an empty tool-specific YAML file
gives back None, not the zero-value structure. -/
theorem load_config_verbatim_witness :
    load_config ⟨some (.ok .pyNone), none⟩ = .ok PyValue.pyNone :=
  (load_config_verbatim ⟨some (.ok .pyNone), none⟩).1 rfl

/-- C4: precedence law of lines 105-111: whenever at least one waiting
pattern matches the window text, classification yields "waiting", even
if thinking patterns also match; and a "thinking" classification can
arise only when no waiting pattern matched (the elif) and some thinking
pattern did. -/
theorem classify_precedence (search : String → List Nat → Bool)
    (cfg : ToolCfg) (text : List Nat) :
    (cfg.waiting.any (fun p => search p text) = true →
      classify search cfg text = some "waiting")
    ∧ (classify search cfg text = some "thinking" →
        cfg.waiting.any (fun p => search p text) = false
        ∧ cfg.thinking.any (fun p => search p text) = true) := by
  unfold classify
  constructor
  · intro h
    simp [h]
  · intro h
    cases hw : cfg.waiting.any (fun p => search p text) <;>
      cases ht : cfg.thinking.any (fun p => search p text) <;>
      simp [hw, ht] at h ⊢

/-- Witness for classify_precedence: a configuration whose waiting and
thinking patterns both match the text still classifies as waiting. -/
theorem classify_precedence_witness :
    classify searchAll ⟨["w"], ["t"], 500⟩ [65] = some "waiting" :=
  (classify_precedence searchAll ⟨["w"], ["t"], 500⟩ [65]).1 rfl

/-- Splitting the last-n-bytes window of an appended buffer. -/
theorem lastN_append (n : Nat) (a b : List Nat) :
    lastN n (a ++ b) = lastN (n - b.length) a ++ lastN n b := by
  unfold lastN
  rw [List.drop_append_eq_append_drop]
  congr 1
  · rcases le_or_lt n b.length with h | h
    · rw [List.drop_eq_nil_of_le (by simp; omega),
        List.drop_eq_nil_of_le (by omega)]
    · congr 1
      simp
      omega
  · congr 1
    simp
    omega

/-- Re-truncating to a smaller window is absorbed by the larger one. -/
theorem lastN_lastN (m n : Nat) (l : List Nat) (h : m ≤ n) :
    lastN m (lastN n l) = lastN m l := by
  unfold lastN
  rw [List.drop_drop]
  congr 1
  simp
  omega

/-- Truncating the left part of an append to the window size first does
not change the final window. -/
theorem lastN_preserve (n : Nat) (a b : List Nat) :
    lastN n (lastN n a ++ b) = lastN n (a ++ b) := by
  rw [lastN_append, lastN_append, lastN_lastN _ _ _ (Nat.sub_le n b.length)]

/-- The window is a suffix of the buffer it was cut from. -/
theorem lastN_suffix (n : Nat) (l : List Nat) : lastN n l <:+ l :=
  List.drop_suffix _ _

/-- One searched text per arriving chunk. -/
theorem searchedTexts_length (buf : List Nat) (cs : List (List Nat)) :
    (searchedTexts buf cs).length = cs.length := by
  induction cs generalizing buf with
  | nil => rfl
  | cons c cs ih => simp [searchedTexts, ih]

/-- Characterization of the k-th searched text: the last-1024-byte window
of the output accumulated before the chunk, followed by the chunk
itself. -/
theorem searchedTexts_getD (cs : List (List Nat)) (acc : List Nat) (k : Nat)
    (h : k < cs.length) :
    (searchedTexts (lastN 1024 acc) cs).getD k [] =
      lastN 1024 (acc ++ (cs.take k).join) ++ cs.getD k [] := by
  induction cs generalizing acc k with
  | nil => simp at h
  | cons c cs ih =>
    cases k with
    | zero => simp [searchedTexts]
    | succ k =>
      have h' : k < cs.length := by simpa using h
      have e := ih (acc ++ c) k h'
      simp only [searchedTexts, List.getD_cons_succ]
      rw [lastN_preserve, e]
      simp [List.append_assoc]

/-- C2, counterexample: after a 1024-byte chunk followed by another
1024-byte chunk, the text searched on the second arrival is the full 2048
accumulated bytes (previous retained window plus new chunk), not the
last-1024-byte truncation of the accumulated output that the claim
asserts; truncation to 1024 bytes happens only after the search. -/
theorem searched_window_claim_cex :
    searchedTexts [] [List.replicate 1024 0, List.replicate 1024 1] ≠
      windowOnlyTexts [List.replicate 1024 0, List.replicate 1024 1] := by
  intro h
  have h2 : ((searchedTexts [] [List.replicate 1024 (0 : Nat), List.replicate 1024 1]).getD 1 []).length =
      ((windowOnlyTexts [List.replicate 1024 (0 : Nat), List.replicate 1024 1]).getD 1 []).length := by
    rw [h]
  have hL : (searchedTexts [] [List.replicate 1024 (0 : Nat), List.replicate 1024 1]).getD 1 [] =
      lastN 1024 (List.replicate 1024 0) ++ List.replicate 1024 1 := by
    simp only [searchedTexts, List.nil_append, List.getD_cons_succ, List.getD_cons_zero]
  have hR : (windowOnlyTexts [List.replicate 1024 (0 : Nat), List.replicate 1024 1]).getD 1 [] =
      lastN 1024 (List.replicate 1024 0 ++ (List.replicate 1024 1 ++ [])) := by
    simp only [windowOnlyTexts, List.length_cons, List.length_nil]
    rw [show List.range (0 + 1 + 1) = [0, 1] from rfl]
    simp only [List.map_cons, List.map_nil, List.getD_cons_succ, List.getD_cons_zero]
    rfl
  rw [hL, hR] at h2
  simp only [List.length_append, lastN, List.length_drop, List.length_replicate,
    List.length_nil] at h2
  omega

/-- C2, amended: the text searched on the k-th arrival is the last-1024
byte window of the previously accumulated output followed by the new
chunk (so it can reach 1024 bytes plus the chunk length, containing up to
1024 bytes older than the final window); the last-1024-byte window of the
whole accumulated output is always a suffix of the searched text, so a
pattern lying entirely within those 1024 bytes is inside the searched
text. -/
theorem searched_window_spec (cs : List (List Nat)) (k : Nat)
    (h : k < cs.length) :
    (searchedTexts [] cs).getD k [] =
      lastN 1024 ((cs.take k).join) ++ cs.getD k []
    ∧ lastN 1024 ((cs.take (k + 1)).join) <:+ (searchedTexts [] cs).getD k [] := by
  have h0 : searchedTexts [] cs = searchedTexts (lastN 1024 []) cs := rfl
  have e1 : (searchedTexts [] cs).getD k [] =
      lastN 1024 ((cs.take k).join) ++ cs.getD k [] := by
    rw [h0, searchedTexts_getD cs [] k h]
    simp
  refine ⟨e1, ?_⟩
  have e2 : (cs.take (k + 1)).join = (cs.take k).join ++ cs.getD k [] := by
    have hg : cs[k]? = some (cs.getD k []) := by
      rw [List.getElem?_eq_getElem h, List.getD_eq_getElem]
    rw [List.take_succ, hg]
    simp
  rw [e1, e2, ← lastN_preserve]
  exact lastN_suffix _ _

/-- Witness for searched_window_spec at a concrete two-chunk run. -/
theorem searched_window_spec_witness :
    ((searchedTexts [] [[1], [2]]).getD 1 [] =
      lastN 1024 (([[1], [2]].take 1).join) ++ [[1], [2]].getD 1 [])
    ∧ lastN 1024 (([[1], [2]].take 2).join) <:+
        (searchedTexts [] [[1], [2]]).getD 1 [] :=
  searched_window_spec [[1], [2]] 1 (by decide)

/-- Every state's LED argument vector has five entries. -/
theorem stateToCmdGet_length (state : String) : (stateToCmdGet state).length = 5 := by
  rcases eq_or_ne state "idle" with h1 | h1
  · subst h1; rfl
  rcases eq_or_ne state "thinking" with h2 | h2
  · subst h2; rfl
  rcases eq_or_ne state "waiting" with h3 | h3
  · subst h3; rfl
  have e1 : (state == "idle") = false := beq_eq_false_iff_ne.mpr h1
  have e2 : (state == "thinking") = false := beq_eq_false_iff_ne.mpr h2
  have e3 : (state == "waiting") = false := beq_eq_false_iff_ne.mpr h3
  simp [stateToCmdGet, STATE_TO_CMD, List.lookup, e1, e2, e3]

/-- A state-change LED invocation is neither the clear invocation nor a
terminal restore. -/
theorem loopEvOk_ledState (s : String) :
    loopEvOk (Ev.led (LED_SCRIPT :: stateToCmdGet s)) := by
  constructor
  · intro h
    cases h
  · intro h
    have h' := congrArg (fun e => match e with | Ev.led c => c.length | _ => 0) h
    simp [stateToCmdGet_length] at h'

/-- Relayed child output is not a cleanup event. -/
theorem loopEvOk_stdout (d : List Nat) : loopEvOk (Ev.stdoutWrite d) := by
  constructor <;> intro h <;> cases h

/-- Forwarded user input is not a cleanup event. -/
theorem loopEvOk_child (d : List Nat) : loopEvOk (Ev.childWrite d) := by
  constructor <;> intro h <;> cases h

/-- update_state only emits state-change LED invocations. -/
theorem update_state_evs (env : Env) (d : Debounce) (state : String) (now : ℚ) :
    ∀ ev ∈ (update_state env d state now).2, loopEvOk ev := by
  unfold update_state set_led subprocessRun
  split
  · cases he : env.ledExists <;> simp [he, loopEvOk_ledState]
  · simp

/-- update_state cannot raise when the LED binary exists. -/
theorem update_state_ok (env : Env) (h : env.ledExists = true) (d : Debounce)
    (state : String) (now : ℚ) :
    ∀ e, (update_state env d state now).1 ≠ .error e := by
  unfold update_state set_led subprocessRun
  split
  · simp [h]
  · simp

/-- The classification step only emits state-change LED invocations. -/
theorem stepClassify_evs (env : Env) (cfg : ToolCfg)
    (search : String → List Nat → Bool) (d : Debounce) (text : List Nat)
    (now : ℚ) :
    ∀ ev ∈ (stepClassify env cfg search d text now).2, loopEvOk ev := by
  unfold stepClassify
  cases hc : classify search cfg text with
  | none => simp
  | some s => exact update_state_evs env d s now

/-- The classification step cannot raise when the LED binary exists. -/
theorem stepClassify_ok (env : Env) (h : env.ledExists = true) (cfg : ToolCfg)
    (search : String → List Nat → Bool) (d : Debounce) (text : List Nat)
    (now : ℚ) :
    ∀ e, (stepClassify env cfg search d text now).1 ≠ .error e := by
  unfold stepClassify
  cases hc : classify search cfg text with
  | none => simp
  | some s => exact update_state_ok env h d s now

/-- The child-output branch emits only relayed output and state-change LED
invocations. -/
theorem stepMaster_evs (env : Env) (cfg : ToolCfg)
    (search : String → List Nat → Bool) (st : LoopSt) (tk : Tick) :
    ∀ ev ∈ (stepMaster env cfg search st tk).2, loopEvOk ev := by
  unfold stepMaster
  split
  · split
    · simp
    · simp
    · rename_i data h1 h2
      cases hc : stepClassify env cfg search st.deb (st.buffer ++ data) tk.t with
      | mk r evs =>
        have hm := stepClassify_evs env cfg search st.deb (st.buffer ++ data) tk.t
        rw [hc] at hm
        cases r <;>
          (intro ev hev
           rcases (by simpa using hev : ev = Ev.stdoutWrite data ∨ ev ∈ evs) with hx | hx
           · exact hx ▸ loopEvOk_stdout data
           · exact hm ev hx)
  · simp

/-- The child-output branch cannot raise when the LED binary exists. -/
theorem stepMaster_ok (env : Env) (h : env.ledExists = true) (cfg : ToolCfg)
    (search : String → List Nat → Bool) (st : LoopSt) (tk : Tick) :
    ∀ e, (stepMaster env cfg search st tk).1 ≠ .error e := by
  unfold stepMaster
  split
  · split
    · simp
    · simp
    · rename_i data h1 h2
      cases hc : stepClassify env cfg search st.deb (st.buffer ++ data) tk.t with
      | mk r evs =>
        have hm := stepClassify_ok env h cfg search st.deb (st.buffer ++ data) tk.t
        rw [hc] at hm
        cases r <;> simp_all
  · simp

/-- The idle branch of stepTail emits only state-change LED
invocations. -/
theorem stepTail_idle_evs (env : Env) (cfg : ToolCfg) (rlistEmpty : Bool)
    (st : LoopSt) (tk : Tick) :
    ∀ ev ∈ (if rlistEmpty ∧ (tk.t - st.idleTimer) * 1000 > cfg.idle_threshold_ms then
      update_state env st.deb "idle" tk.t else (.ok st.deb, [])).2, loopEvOk ev := by
  split
  · exact update_state_evs env st.deb "idle" tk.t
  · simp

/-- The idle-check and child-exit branch emits only state-change LED
invocations. -/
theorem stepTail_evs (env : Env) (cfg : ToolCfg) (rlistEmpty : Bool)
    (st : LoopSt) (tk : Tick) :
    ∀ ev ∈ (stepTail env cfg rlistEmpty st tk).2, loopEvOk ev := by
  unfold stepTail
  have hidle := stepTail_idle_evs env cfg rlistEmpty st tk
  split
  · rename_i e evs heq
    rw [heq] at hidle
    exact hidle
  · rename_i d1 evs heq
    rw [heq] at hidle
    split
    · cases hu : update_state env d1 "idle" tk.t with
      | mk r evs2 =>
        have hm := update_state_evs env d1 "idle" tk.t
        rw [hu] at hm
        cases r <;>
          (intro ev hev
           rcases (by simpa using hev : ev ∈ evs ∨ ev ∈ evs2) with hx | hx
           · exact hidle ev hx
           · exact hm ev hx)
    · exact hidle

/-- The idle-check and child-exit branch cannot raise when the LED binary
exists. -/
theorem stepTail_ok (env : Env) (h : env.ledExists = true) (cfg : ToolCfg)
    (rlistEmpty : Bool) (st : LoopSt) (tk : Tick) :
    ∀ e, (stepTail env cfg rlistEmpty st tk).1 ≠ .error e := by
  unfold stepTail
  split
  · rename_i e evs heq
    have hne : ∀ e', (if rlistEmpty ∧ (tk.t - st.idleTimer) * 1000 > cfg.idle_threshold_ms then
        update_state env st.deb "idle" tk.t else (.ok st.deb, [])).1 ≠ .error e' := by
      split
      · exact update_state_ok env h st.deb "idle" tk.t
      · simp
    rw [heq] at hne
    intro e'
    exact (hne e rfl).elim
  · rename_i d1 evs heq
    split
    · cases hu : update_state env d1 "idle" tk.t with
      | mk r evs2 =>
        have hm := update_state_ok env h d1 "idle" tk.t
        rw [hu] at hm
        cases r <;> simp_all
    · simp

/-- One loop iteration emits only relayed output, forwarded input and
state-change LED invocations. -/
theorem loopStep_evs (env : Env) (cfg : ToolCfg)
    (search : String → List Nat → Bool) (tty : Bool) (st : LoopSt) (tk : Tick) :
    ∀ ev ∈ (loopStep env cfg search tty st tk).2, loopEvOk ev := by
  unfold loopStep
  split
  · simp
  · rename_i evsA heq
    have hA : ∀ ev ∈ evsA, loopEvOk ev := by
      split at heq
      · split at heq
        · simp_all
        · simp_all
        · simp only [Option.some.injEq] at heq
          subst heq
          simpa using loopEvOk_child _
      · simp_all
    split
    · rename_i e evsB heqB
      have hmB := stepMaster_evs env cfg search st tk
      rw [heqB] at hmB
      intro ev hev
      rcases (by simpa using hev : ev ∈ evsA ∨ ev ∈ evsB) with hx | hx
      · exact hA ev hx
      · exact hmB ev hx
    · rename_i evsB heqB
      have hmB := stepMaster_evs env cfg search st tk
      rw [heqB] at hmB
      intro ev hev
      rcases (by simpa using hev : ev ∈ evsA ∨ ev ∈ evsB) with hx | hx
      · exact hA ev hx
      · exact hmB ev hx
    · rename_i st1 evsB heqB
      have hmB := stepMaster_evs env cfg search st tk
      rw [heqB] at hmB
      cases hC : stepTail env cfg (!(tty && tk.stdinReady) && !tk.masterReady) st1 tk with
      | mk rc evsC =>
        have hmC := stepTail_evs env cfg (!(tty && tk.stdinReady) && !tk.masterReady) st1 tk
        rw [hC] at hmC
        intro ev hev
        rcases (by simpa using hev : ev ∈ evsA ∨ ev ∈ evsB ∨ ev ∈ evsC) with hx | hx | hx
        · exact hA ev hx
        · exact hmB ev hx
        · exact hmC ev hx

/-- One loop iteration cannot raise when the LED binary exists. -/
theorem loopStep_ok (env : Env) (h : env.ledExists = true) (cfg : ToolCfg)
    (search : String → List Nat → Bool) (tty : Bool) (st : LoopSt) (tk : Tick) :
    ∀ e, (loopStep env cfg search tty st tk).1 ≠ .error e := by
  unfold loopStep
  split
  · simp
  · rename_i evsA heq
    split
    · rename_i e evsB heqB
      have hmB := stepMaster_ok env h cfg search st tk
      rw [heqB] at hmB
      simp_all
    · simp
    · rename_i st1 evsB heqB
      cases hC : stepTail env cfg (!(tty && tk.stdinReady) && !tk.masterReady) st1 tk with
      | mk rc evsC =>
        have hmC := stepTail_ok env h cfg (!(tty && tk.stdinReady) && !tk.masterReady) st1 tk
        rw [hC] at hmC
        cases rc <;> simp_all

/-- The whole while loop emits only relayed output, forwarded input and
state-change LED invocations — never the clear invocation or a terminal
restore. -/
theorem runLoop_evs (env : Env) (cfg : ToolCfg)
    (search : String → List Nat → Bool) (tty : Bool) (st : LoopSt)
    (ticks : List Tick) :
    ∀ ev ∈ (runLoop env cfg search tty st ticks).2, loopEvOk ev := by
  induction ticks generalizing st with
  | nil => simp [runLoop]
  | cons tk tks ih =>
    unfold runLoop
    split
    · rename_i e evs heq
      have hm := loopStep_evs env cfg search tty st tk
      rw [heq] at hm
      simpa using hm
    · rename_i evs heq
      have hm := loopStep_evs env cfg search tty st tk
      rw [heq] at hm
      simpa using hm
    · rename_i st1 evs heq
      have hm := loopStep_evs env cfg search tty st tk
      rw [heq] at hm
      cases hr : runLoop env cfg search tty st1 tks with
      | mk r2 evs2 =>
        have hm2 := ih st1
        rw [hr] at hm2
        intro ev hev
        rcases (by simpa using hev : ev ∈ evs ∨ ev ∈ evs2) with hx | hx
        · exact hm ev hx
        · exact hm2 ev hx

/-- The whole while loop cannot end with an exception when the LED binary
exists. -/
theorem runLoop_ok (env : Env) (h : env.ledExists = true) (cfg : ToolCfg)
    (search : String → List Nat → Bool) (tty : Bool) (st : LoopSt)
    (ticks : List Tick) :
    ∀ e, (runLoop env cfg search tty st ticks).1 ≠ some (.error e) := by
  induction ticks generalizing st with
  | nil => simp [runLoop]
  | cons tk tks ih =>
    unfold runLoop
    split
    · rename_i e evs heq
      have hm := loopStep_ok env h cfg search tty st tk
      rw [heq] at hm
      simp_all
    · simp
    · rename_i st1 evs heq
      cases hr : runLoop env cfg search tty st1 tks with
      | mk r2 evs2 =>
        have h2 := ih st1
        rw [hr] at h2
        simpa using h2

/-- C1, amended: when the indicator binary exists, indicator invocations
never abort the supervision loop, whatever exit status the indicator
reports (subprocess.run is called without check, so the status is
ignored): run_tool can never finish with an exception.  (The
counterexample shows the missing-binary case does abort the loop.) -/
theorem indicator_exit_status_never_aborts (env : Env) (cfg : ToolCfg)
    (search : String → List Nat → Bool) (tty : Bool) (t0 : ℚ)
    (ticks : List Tick) (h : env.ledExists = true) (e : PyErr) :
    (run_tool env cfg search tty t0 ticks).1 ≠ .finished (.error e) := by
  unfold run_tool
  cases hr : runLoop env cfg search tty ⟨[], t0, ⟨none, 0⟩⟩ ticks with
  | mk ro evs =>
    cases ro with
    | none => simp
    | some r =>
      cases r with
      | error e' =>
        have hok := runLoop_ok env h cfg search tty ⟨[], t0, ⟨none, 0⟩⟩ ticks e'
        rw [hr] at hok
        simp at hok
      | ok u =>
        cases u
        simp [h]

/-- Witness for indicator_exit_status_never_aborts: a run whose indicator
exits with status 3 does not abort. -/
theorem indicator_exit_status_never_aborts_witness :
    (run_tool envLedFail cfgW searchAll false 0 [tickData]).1 ≠
      .finished (.error .fileNotFound) :=
  indicator_exit_status_never_aborts envLedFail cfgW searchAll false 0
    [tickData] rfl .fileNotFound

/-- C1, counterexample: with the indicator binary missing, the first
waiting classification raises FileNotFoundError inside set_led; the
exception propagates out of update_state and aborts the supervision loop
(the script's second tick is never processed and run_tool finishes with
the exception, after the cleanup clear invocation), whereas the same
script with the binary present leaves the loop still running. -/
theorem indicator_failure_aborts_loop_cex :
    run_tool envNoLed cfgW searchAll false 0 [tickData, tickData] =
      (.finished (.error .fileNotFound),
        [Ev.stdoutWrite [65], Ev.led ["led", "a", "0", "100", "0", "0"],
         Ev.led ["led", "o"]])
    ∧ (run_tool envLed cfgW searchAll false 0 [tickData, tickData]).1 =
        .stillRunning := by
  constructor
  · simp [run_tool, runLoop, loopStep, stepMaster, stepTail, stepClassify, classify,
      update_state, set_led, subprocessRun, stateToCmdGet, STATE_TO_CMD, lastN,
      MIN_STATE_DURATION, LED_SCRIPT, envNoLed, cfgW, searchAll, tickData, List.lookup]
    norm_num
  · simp [run_tool, runLoop, loopStep, stepMaster, stepTail, stepClassify, classify,
      update_state, set_led, subprocessRun, stateToCmdGet, STATE_TO_CMD, lastN,
      MIN_STATE_DURATION, LED_SCRIPT, envLed, cfgW, searchAll, tickData, List.lookup]
    norm_num

/-- C5, amended: whenever run_tool terminates, normally or through an
error, the finally block issues exactly one clear ("o") invocation of the
indicator, and the loop itself never issues one; if stdin was not a TTY
no terminal restore happens; if stdin was a TTY and the indicator binary
exists, the saved terminal settings are restored; but if the indicator
binary is missing the clear invocation itself raises FileNotFoundError,
the restore on line 130 is skipped even though raw mode was active, and
run_tool finishes with that exception. -/
theorem cleanup_on_termination (env : Env) (cfg : ToolCfg)
    (search : String → List Nat → Bool) (tty : Bool) (t0 : ℚ)
    (ticks : List Tick) (r : Except PyErr Unit) (evs : List Ev)
    (h : run_tool env cfg search tty t0 ticks = (.finished r, evs)) :
    evs.count (Ev.led [LED_SCRIPT, "o"]) = 1
    ∧ (tty = false → Ev.restoreTerm ∉ evs)
    ∧ (tty = true → env.ledExists = true → Ev.restoreTerm ∈ evs)
    ∧ (env.ledExists = false →
        Ev.restoreTerm ∉ evs ∧ r = .error .fileNotFound) := by
  unfold run_tool at h
  cases hr : runLoop env cfg search tty ⟨[], t0, ⟨none, 0⟩⟩ ticks with
  | mk ro evs0 =>
    rw [hr] at h
    have hclean := runLoop_evs env cfg search tty ⟨[], t0, ⟨none, 0⟩⟩ ticks
    rw [hr] at hclean
    have hnooff : Ev.led [LED_SCRIPT, "o"] ∉ evs0 := fun hm => (hclean _ hm).2 rfl
    have hnorest : Ev.restoreTerm ∉ evs0 := fun hm => (hclean _ hm).1 rfl
    have c0 : evs0.count (Ev.led [LED_SCRIPT, "o"]) = 0 :=
      List.count_eq_zero.mpr hnooff
    cases ro with
    | none => simp at h
    | some r0 =>
      replace h : (if env.ledExists = true then
          (Outcome.finished r0, evs0 ++ [Ev.led [LED_SCRIPT, "o"]] ++
            if tty = true then [Ev.restoreTerm] else [])
        else (Outcome.finished (Except.error PyErr.fileNotFound),
          evs0 ++ [Ev.led [LED_SCRIPT, "o"]])) = (Outcome.finished r, evs) := h
      by_cases hle : env.ledExists = true
      · rw [if_pos hle] at h
        injection h with h1 h2
        injection h1 with h1
        subst h1
        subst h2
        refine ⟨?_, ?_, ?_, ?_⟩
        · rw [List.count_append, List.count_append, c0]
          have c2 : (if tty then [Ev.restoreTerm] else []).count
              (Ev.led [LED_SCRIPT, "o"]) = 0 := by
            split <;> simp
          simp [c2]
        · intro htty
          simp [htty, List.mem_append, hnorest]
        · intro htty _
          simp [htty, List.mem_append]
        · intro hf
          rw [hf] at hle
          simp at hle
      · have hle' : env.ledExists = false := by simpa using hle
        rw [if_neg (by simp [hle'])] at h
        injection h with h1 h2
        injection h1 with h1
        subst h1
        subst h2
        refine ⟨?_, ?_, ?_, ?_⟩
        · rw [List.count_append, c0]
          simp
        · intro _
          simp [List.mem_append, hnorest]
        · intro _ hcontr
          exact absurd hcontr (by simp [hle'])
        · intro _
          refine ⟨?_, rfl⟩
          simp [List.mem_append, hnorest]

/-- Witness for cleanup_on_termination at a concrete terminating run with
the binary present and a TTY. -/
theorem cleanup_on_termination_witness :
    ([Ev.led [LED_SCRIPT, "o"], Ev.restoreTerm].count (Ev.led [LED_SCRIPT, "o"]) = 1)
    ∧ (true = false → Ev.restoreTerm ∉ [Ev.led [LED_SCRIPT, "o"], Ev.restoreTerm])
    ∧ (true = true → envLed.ledExists = true →
        Ev.restoreTerm ∈ [Ev.led [LED_SCRIPT, "o"], Ev.restoreTerm])
    ∧ (envLed.ledExists = false →
        Ev.restoreTerm ∉ [Ev.led [LED_SCRIPT, "o"], Ev.restoreTerm]
        ∧ (.ok () : Except PyErr Unit) = .error .fileNotFound) :=
  cleanup_on_termination envLed cfgW searchAll true 0 [tickExit] (.ok ())
    [Ev.led [LED_SCRIPT, "o"], Ev.restoreTerm]
    (by norm_num [run_tool, runLoop, loopStep, stepMaster, stepTail, stepClassify,
      classify, update_state, set_led, subprocessRun, stateToCmdGet, STATE_TO_CMD,
      lastN, MIN_STATE_DURATION, LED_SCRIPT, envLed, cfgW, searchAll, tickExit,
      List.lookup])

/-- C5, counterexample: a run with a TTY (raw mode saved and set) and a
missing indicator binary terminates with the clear invocation issued but
no terminal restore: the FileNotFoundError raised by the clear invocation
inside the finally block skips line 130. -/
theorem cleanup_restore_skipped_cex :
    run_tool envNoLed cfgW searchAll true 0 [tickExit] =
      (.finished (.error .fileNotFound), [Ev.led [LED_SCRIPT, "o"]])
    ∧ Ev.restoreTerm ∉ [Ev.led [LED_SCRIPT, "o"]] := by
  constructor
  · norm_num [run_tool, runLoop, loopStep, stepMaster, stepTail, stepClassify,
      classify, update_state, set_led, subprocessRun, stateToCmdGet, STATE_TO_CMD,
      lastN, MIN_STATE_DURATION, LED_SCRIPT, envNoLed, cfgW, searchAll, tickExit,
      List.lookup]
  · simp
